import Mathlib

/-!
Verification development for `src/perftracker/runner_cfg.py` of the
web-page-replay repository.

The file shallowly embeds the program's data model and control flow:

* `Options` / `defaultOptions` / `Flag` / `applyFlag` / `parseOptions` embed
  the `optparse` option declarations at the bottom of the file (defaults and
  the effect of each command-line flag).
* `replay_server_class` embeds the server-class selection at the top of
  `main`.
* `mainBody` embeds the three nested `with` statements of `main` together
  with the idle loop, as an event trace paired with the exception (if any)
  that escapes the nested scopes.  A `Scenario` records which acquisitions
  fail and whether the idle loop ends by an exception; context managers
  already entered run their exits (release events) while the exception
  unwinds, exactly as Python's `with` guarantees.
* `excClauses` / `runHandlers` embed the ordered `except` clauses of `main`
  (the last clause is the bare `except:`, which matches every exception).
* `mainRun` composes body and handlers: the full trace of one call to
  `main` and the exception, if any, propagated to `main`'s caller.
* `loopCond` / `runLoopFuel` embed the idle-loop condition
  `not options.time_limit or time.time() - start < options.time_limit`,
  with wall-clock time discretized to whole seconds (the loop body is a
  single `time.sleep(1)`, so elapsed time advances by one second per
  iteration).
-/

namespace Perftracker

/-- The Python exceptions distinguished by `main`'s handlers.  `otherExc`
stands for any exception not equal to the three named ones; it is caught by
the bare `except:` clause. -/
inductive Exc
  | keyboardInterrupt
  | dnsProxyException
  | trafficShaperException
  | otherExc
deriving DecidableEq

/-- The three server classes `main` can select:
`httpproxy.RecordHttpProxyServer`, `replayspdyserver.ReplaySpdyServer`,
`httpproxy.ReplayHttpProxyServer`. -/
inductive ServerClass
  | recordHttpProxyServer
  | replaySpdyServer
  | replayHttpProxyServer
deriving DecidableEq

/-- Logging severities of the `logging` module (the choices of the
`--log_level` option). -/
inductive Severity
  | debug
  | info
  | warning
  | error
  | critical
deriving DecidableEq

/-- Observable events of one run of `main`: resource acquisitions with the
arguments `main` passes to each constructor, releases (context-manager
exits), sleeps inside the idle loop, log calls, and the traceback print of
the bare `except:` clause.  `acquireHttp`'s last field records that the
server is constructed with `dns_server.real_dns_lookup` as its third
argument. -/
inductive Event
  | acquireDns (dns_forwarding : Bool) (dns_private_passthrough : Bool)
  | acquireHttp (cls : ServerClass) (replay_file : String)
      (deterministic_script : Bool) (uses_real_dns_lookup : Bool)
  | acquireShaper (dns_forwarding : Bool) (up : String) (down : String)
      (delay_ms : String) (packet_loss_rate : String)
  | releaseShaper
  | releaseHttp
  | releaseDns
  | sleepSeconds (n : Nat)
  | log (sev : Severity)
  | printTraceback
deriving DecidableEq

/-- The parsed options object.  Fields and types follow the
`option_parser.add_option` declarations: the five booleans are
`store_true`/`store_false` flags, the four network-simulation parameters
are strings (`type='string'`), `time_limit` is an optional int
(`type='int'`, default `None`), `log_file` an optional string. -/
structure Options where
  spdy : Bool
  record : Bool
  log_level : String
  log_file : Option String
  time_limit : Option Int
  up : String
  down : String
  delay_ms : String
  packet_loss_rate : String
  deterministic_script : Bool
  dns_private_passthrough : Bool
  dns_forwarding : Bool
deriving DecidableEq

/-- The `default=` value of every option declaration. -/
def defaultOptions : Options :=
  { spdy := false
    record := false
    log_level := "debug"
    log_file := none
    time_limit := none
    up := "0"
    down := "0"
    delay_ms := "0"
    packet_loss_rate := "0"
    deterministic_script := true
    dns_private_passthrough := true
    dns_forwarding := true }

/-- One occurrence of a command-line option, with its argument when the
option takes one. -/
inductive Flag
  | spdy
  | record
  | log_level (v : String)
  | log_file (v : String)
  | time_limit (v : Int)
  | up (v : String)
  | down (v : String)
  | delay_ms (v : String)
  | packet_loss_rate (v : String)
  | no_deterministic_script
  | no_dns_private_passthrough
  | no_dns_forwarding
deriving DecidableEq

/-- The `action` of each option: `store_true` flags set their dest to
`True`, the three `--no-...` flags are `store_false` on their `dest`, the
rest store their argument. -/
def applyFlag (o : Options) : Flag → Options
  | .spdy => { o with spdy := true }
  | .record => { o with record := true }
  | .log_level v => { o with log_level := v }
  | .log_file v => { o with log_file := some v }
  | .time_limit v => { o with time_limit := some v }
  | .up v => { o with up := v }
  | .down v => { o with down := v }
  | .delay_ms v => { o with delay_ms := v }
  | .packet_loss_rate v => { o with packet_loss_rate := v }
  | .no_deterministic_script => { o with deterministic_script := false }
  | .no_dns_private_passthrough => { o with dns_private_passthrough := false }
  | .no_dns_forwarding => { o with dns_forwarding := false }

/-- `option_parser.parse_args`: start from the defaults and apply the given
flags left to right. -/
def parseOptions (flags : List Flag) : Options :=
  flags.foldl applyFlag defaultOptions

/-- The server-class selection at the top of `main`:
`if options.record: ... elif options.spdy: ... else: ...`. -/
def replay_server_class (o : Options) : ServerClass :=
  if o.record then ServerClass.recordHttpProxyServer
  else if o.spdy then ServerClass.replaySpdyServer
  else ServerClass.replayHttpProxyServer

/-- The idle-loop condition
`not options.time_limit or time.time() - start < options.time_limit`.
Python truthiness: `not None` and `not 0` are `True`, so the condition is
`True` whenever `time_limit` is `None` or `0`; otherwise it compares the
elapsed time with the limit. -/
def loopCond (time_limit : Option Int) (elapsed : Int) : Bool :=
  match time_limit with
  | none => true
  | some t => decide (t = 0) || decide (elapsed < t)

/-- Fuel-indexed run of the idle loop.  Each iteration executes
`time.sleep(1)`, so the elapsed time advances by one second.  Returns
`some elapsed` when the loop condition fails within the given fuel (the
elapsed time at which the loop terminated on its own), and `none` when the
loop is still running after `fuel` checks. -/
def runLoopFuel : Nat → Option Int → Int → Option Int
  | 0, _, _ => none
  | fuel + 1, tl, elapsed =>
      if loopCond tl elapsed then runLoopFuel fuel tl (elapsed + 1)
      else some elapsed

/-- Which step of a run fails, and how the idle loop ends.  `dnsEnter`,
`httpEnter`, `shaperEnter` are the exceptions raised (if any) while
constructing/entering the corresponding context manager; `loopExc` is the
exception (if any) raised inside the idle loop — `none` means the loop
ended because the time limit expired; `loopIterations` is the number of
completed `time.sleep(1)` calls. -/
structure Scenario where
  dnsEnter : Option Exc
  httpEnter : Option Exc
  shaperEnter : Option Exc
  loopExc : Option Exc
  loopIterations : Nat
deriving DecidableEq

/-- The body of `main`'s `try:` block — the three nested `with`
statements.  Yields the event trace and the exception (if any) escaping the
nested scopes toward `main`'s `except` clauses.  A `with` whose enter
raises contributes no release; contexts already entered run their exits
(release events) while the exception unwinds, so releases appear in the
trace before the exception reaches the handlers. -/
def mainBody (o : Options) (replay_file : String) (s : Scenario) :
    List Event × Option Exc :=
  match s.dnsEnter with
  | some e => ([], some e)
  | none =>
    match s.httpEnter with
    | some e =>
        ([Event.acquireDns o.dns_forwarding o.dns_private_passthrough,
          Event.releaseDns], some e)
    | none =>
      match s.shaperEnter with
      | some e =>
          ([Event.acquireDns o.dns_forwarding o.dns_private_passthrough,
            Event.acquireHttp (replay_server_class o) replay_file
              o.deterministic_script true,
            Event.releaseHttp, Event.releaseDns], some e)
      | none =>
          ([Event.acquireDns o.dns_forwarding o.dns_private_passthrough,
            Event.acquireHttp (replay_server_class o) replay_file
              o.deterministic_script true,
            Event.acquireShaper o.dns_forwarding o.up o.down o.delay_ms
              o.packet_loss_rate]
            ++ List.replicate s.loopIterations (Event.sleepSeconds 1)
            ++ [Event.releaseShaper, Event.releaseHttp, Event.releaseDns],
           s.loopExc)

/-- The ordered `except` clauses of `main`: a matching predicate and a
handler body for each.  In source order: `KeyboardInterrupt` →
`logging.info('Shutting down.')`; `dnsproxy.DnsProxyException` →
`logging.critical(e)`; `trafficshaper.TrafficShaperException` →
`logging.critical(e)`; the bare `except:` → `print traceback.format_exc()`
(matches everything). -/
def excClauses : List ((Exc → Bool) × List Event) :=
  [ (fun e => e == Exc.keyboardInterrupt, [Event.log Severity.info]),
    (fun e => e == Exc.dnsProxyException, [Event.log Severity.critical]),
    (fun e => e == Exc.trafficShaperException, [Event.log Severity.critical]),
    (fun _ => true, [Event.printTraceback]) ]

/-- Python `except`-clause dispatch: try the clauses in order; the first
whose matcher accepts the exception runs and the exception is considered
handled; with no matching clause the exception propagates to the caller. -/
def runHandlers : List ((Exc → Bool) × List Event) → Exc →
    List Event × Option Exc
  | [], e => ([], some e)
  | (m, body) :: rest, e =>
      if m e then (body, none) else runHandlers rest e

/-- The outcome of one call to `main`: the full event trace and the
exception, if any, that `main` propagates to its caller. -/
structure MainResult where
  trace : List Event
  propagated : Option Exc
deriving DecidableEq

/-- One call to `main(options, replay_file)` under scenario `s`: run the
`try:` body, then dispatch any escaping exception to the `except`
clauses. -/
def mainRun (o : Options) (replay_file : String) (s : Scenario) :
    MainResult :=
  let b := mainBody o replay_file s
  match b.2 with
  | none => { trace := b.1, propagated := none }
  | some e =>
      let h := runHandlers excClauses e
      { trace := b.1 ++ h.1, propagated := h.2 }

/-- Modelled from the spec: the top-level entry point that invokes `main`
is not present under `src/` (the file's `__main__` block only constructs
the option parser).  Per the spec's process-exit contract the entry point
derives the process exit status from the outcome of the run visible to it:
a call to `main` that returns normally ends the interpreter with status 0
(success), and an exception propagating out of `main` to the interpreter
yields a non-zero status.  `main` has no `return` statements, so a normal
return carries no failure information. -/
def processExitCode (o : Options) (replay_file : String) (s : Scenario) :
    Nat :=
  match (mainRun o replay_file s).propagated with
  | none => 0
  | some _ => 1

/-! Concrete scenarios used to instantiate the theorems below. -/

/-- A failure-free run that ends by time-limit expiry after two loop
iterations. -/
def okScenario : Scenario :=
  { dnsEnter := none, httpEnter := none, shaperEnter := none,
    loopExc := none, loopIterations := 2 }

/-- A run whose DNS acquisition raises `DnsProxyException`. -/
def dnsFailScenario : Scenario :=
  { dnsEnter := some Exc.dnsProxyException, httpEnter := none,
    shaperEnter := none, loopExc := none, loopIterations := 0 }

/-- A run whose traffic-shaper acquisition raises
`TrafficShaperException` after DNS and HTTP services were acquired. -/
def shaperFailScenario : Scenario :=
  { dnsEnter := none, httpEnter := none,
    shaperEnter := some Exc.trafficShaperException, loopExc := none,
    loopIterations := 0 }

/-- A run interrupted by the user (`KeyboardInterrupt` inside the idle
loop) after one loop iteration. -/
def interruptScenario : Scenario :=
  { dnsEnter := none, httpEnter := none, shaperEnter := none,
    loopExc := some Exc.keyboardInterrupt, loopIterations := 1 }

/-- A run whose DNS acquisition raises an exception other than the two
named ones, exercising the bare `except:` clause. -/
def otherFailScenario : Scenario :=
  { dnsEnter := some Exc.otherExc, httpEnter := none, shaperEnter := none,
    loopExc := none, loopIterations := 0 }

/-! Helper lemmas. -/

theorem runLoopFuel_succ (fuel : Nat) (tl : Option Int) (e : Int) :
    runLoopFuel (fuel + 1) tl e =
      if loopCond tl e then runLoopFuel fuel tl (e + 1) else some e := rfl

theorem runLoopFuel_reaches (n : Nat) : ∀ t e : Int, t ≠ 0 → e + n = t →
    runLoopFuel (n + 1) (some t) e = some t := by
  induction n with
  | zero =>
      intro t e ht he
      have hte : e = t := by simpa using he
      have hcond : loopCond (some t) e = false := by
        simp [loopCond, ht, hte]
      rw [runLoopFuel_succ, hcond]
      simp [hte]
  | succ n ih =>
      intro t e ht he
      have hlt : e < t := by push_cast at he; omega
      have hcond : loopCond (some t) e = true := by
        simp [loopCond, hlt]
      rw [runLoopFuel_succ, hcond, if_pos rfl]
      exact ih t (e + 1) ht (by push_cast at he ⊢; omega)

theorem runLoopFuel_none_limit (fuel : Nat) : ∀ e : Int,
    runLoopFuel fuel none e = none := by
  induction fuel with
  | zero => intro e; rfl
  | succ n ih =>
      intro e
      rw [runLoopFuel_succ]
      simpa [loopCond] using ih (e + 1)

theorem runLoopFuel_zero_limit (fuel : Nat) : ∀ e : Int,
    runLoopFuel fuel (some 0) e = none := by
  induction fuel with
  | zero => intro e; rfl
  | succ n ih =>
      intro e
      rw [runLoopFuel_succ]
      simpa [loopCond] using ih (e + 1)

theorem runHandlers_keyboardInterrupt :
    runHandlers excClauses Exc.keyboardInterrupt =
      ([Event.log Severity.info], none) := rfl

theorem runHandlers_dnsProxyException :
    runHandlers excClauses Exc.dnsProxyException =
      ([Event.log Severity.critical], none) := rfl

theorem runHandlers_trafficShaperException :
    runHandlers excClauses Exc.trafficShaperException =
      ([Event.log Severity.critical], none) := rfl

theorem runHandlers_otherExc :
    runHandlers excClauses Exc.otherExc =
      ([Event.printTraceback], none) := rfl

/-! The claims. -/

/-- C1, counterexample: in a run whose DNS acquisition raises
`DnsProxyException`, `main` does log at critical severity, but it catches
the exception and returns normally (nothing is propagated), so the process
exit status is 0, not the non-zero status the claim requires. -/
theorem C1_counterexample :
    Event.log Severity.critical ∈
      (mainRun defaultOptions "archive.wpr" dnsFailScenario).trace ∧
    (mainRun defaultOptions "archive.wpr" dnsFailScenario).propagated =
      none ∧
    processExitCode defaultOptions "archive.wpr" dnsFailScenario = 0 := by
  decide

/-- C1, amended: for every run in which acquiring a startup resource fails
(`DnsProxyException` or `TrafficShaperException` escapes the nested
scopes), `main` logs the failure at critical severity, but the exception is
caught by `main`'s handlers and `main` returns normally, so the process
exits with status 0 (success), not a non-zero status. -/
theorem C1_startup_failure_logged_critical (o : Options) (f : String)
    (s : Scenario) (e : Exc)
    (he : e = Exc.dnsProxyException ∨ e = Exc.trafficShaperException)
    (hs : (mainBody o f s).2 = some e) :
    Event.log Severity.critical ∈ (mainRun o f s).trace ∧
    (mainRun o f s).propagated = none ∧
    processExitCode o f s = 0 := by
  rcases he with he | he <;> subst he <;>
    simp [mainRun, processExitCode, hs, runHandlers_dnsProxyException,
      runHandlers_trafficShaperException]

/-- Witness for C1's amended theorem at a concrete run: shaper acquisition
fails with `TrafficShaperException` under default options. -/
theorem C1_startup_failure_logged_critical_witness :
    Event.log Severity.critical ∈
      (mainRun defaultOptions "archive.wpr" shaperFailScenario).trace ∧
    (mainRun defaultOptions "archive.wpr" shaperFailScenario).propagated =
      none ∧
    processExitCode defaultOptions "archive.wpr" shaperFailScenario = 0 :=
  C1_startup_failure_logged_critical defaultOptions "archive.wpr"
    shaperFailScenario Exc.trafficShaperException (Or.inr rfl) (by decide)

/-- C2: in a run where all three acquisitions succeed and the idle loop
ends by time-limit expiry, the trace is exactly: acquire DNS, then acquire
the HTTP service (with the selected server class, the replay file,
`deterministic_script`, and the DNS service's `real_dns_lookup`), then
acquire the shaper; the idle loop; then release shaper, HTTP, DNS, in
strict reverse order of acquisition; and `main` propagates nothing. -/
theorem C2_acquire_release_order (o : Options) (f : String) (s : Scenario)
    (h1 : s.dnsEnter = none) (h2 : s.httpEnter = none)
    (h3 : s.shaperEnter = none) (h4 : s.loopExc = none) :
    (mainRun o f s).trace =
      [Event.acquireDns o.dns_forwarding o.dns_private_passthrough,
       Event.acquireHttp (replay_server_class o) f
         o.deterministic_script true,
       Event.acquireShaper o.dns_forwarding o.up o.down o.delay_ms
         o.packet_loss_rate]
      ++ List.replicate s.loopIterations (Event.sleepSeconds 1)
      ++ [Event.releaseShaper, Event.releaseHttp, Event.releaseDns] ∧
    (mainRun o f s).propagated = none := by
  constructor <;> simp [mainRun, mainBody, h1, h2, h3, h4]

/-- Witness for C2 at a concrete run: default options, a failure-free
scenario with two loop iterations. -/
theorem C2_acquire_release_order_witness :
    (mainRun defaultOptions "archive.wpr" okScenario).trace =
      [Event.acquireDns true true,
       Event.acquireHttp ServerClass.replayHttpProxyServer "archive.wpr"
         true true,
       Event.acquireShaper true "0" "0" "0" "0"]
      ++ List.replicate 2 (Event.sleepSeconds 1)
      ++ [Event.releaseShaper, Event.releaseHttp, Event.releaseDns] ∧
    (mainRun defaultOptions "archive.wpr" okScenario).propagated = none :=
  C2_acquire_release_order defaultOptions "archive.wpr" okScenario
    rfl rfl rfl rfl

/-- C3: when a later acquisition fails, every already-acquired context
manager is released (release events appear in the trace) before the
exception reaches `main`'s handlers: if the HTTP acquisition raises, the
DNS service is released; if the shaper acquisition raises, the HTTP
service and then the DNS service are released; in both cases the handler
events come after the releases. -/
theorem C3_partial_failure_releases (o : Options) (f : String)
    (s : Scenario) (e : Exc) (h1 : s.dnsEnter = none) :
    (s.httpEnter = some e →
      (mainRun o f s).trace =
        [Event.acquireDns o.dns_forwarding o.dns_private_passthrough,
         Event.releaseDns] ++ (runHandlers excClauses e).1) ∧
    (s.httpEnter = none → s.shaperEnter = some e →
      (mainRun o f s).trace =
        [Event.acquireDns o.dns_forwarding o.dns_private_passthrough,
         Event.acquireHttp (replay_server_class o) f
           o.deterministic_script true,
         Event.releaseHttp, Event.releaseDns]
        ++ (runHandlers excClauses e).1) := by
  constructor <;> intros <;> simp [mainRun, mainBody, h1, *]

/-- Witness for C3 at a concrete run: shaper acquisition fails with
`TrafficShaperException` under default options. -/
theorem C3_partial_failure_releases_witness :
    ((shaperFailScenario.httpEnter = some Exc.trafficShaperException →
      (mainRun defaultOptions "archive.wpr" shaperFailScenario).trace =
        [Event.acquireDns true true, Event.releaseDns]
        ++ (runHandlers excClauses Exc.trafficShaperException).1) ∧
    (shaperFailScenario.httpEnter = none →
      shaperFailScenario.shaperEnter = some Exc.trafficShaperException →
      (mainRun defaultOptions "archive.wpr" shaperFailScenario).trace =
        [Event.acquireDns true true,
         Event.acquireHttp ServerClass.replayHttpProxyServer "archive.wpr"
           true true,
         Event.releaseHttp, Event.releaseDns]
        ++ (runHandlers excClauses Exc.trafficShaperException).1)) ∧
    (mainRun defaultOptions "archive.wpr" shaperFailScenario).trace =
      [Event.acquireDns true true,
       Event.acquireHttp ServerClass.replayHttpProxyServer "archive.wpr"
         true true,
       Event.releaseHttp, Event.releaseDns,
       Event.log Severity.critical] :=
  ⟨C3_partial_failure_releases defaultOptions "archive.wpr"
      shaperFailScenario Exc.trafficShaperException rfl,
   ((C3_partial_failure_releases defaultOptions "archive.wpr"
      shaperFailScenario Exc.trafficShaperException rfl).2 rfl rfl).trans
      (by decide)⟩

/-- C4: a run interrupted by `KeyboardInterrupt` inside the idle loop is
not treated as an error: the interrupt is logged at info severity, no
critical log appears, the trace is the same as that of the time-limit run
with the same scenario followed only by the info log (same reverse-order
teardown), `main` propagates nothing, and the process exit status is 0. -/
theorem C4_interrupt_is_clean_shutdown (o : Options) (f : String)
    (s s' : Scenario) (h1 : s.dnsEnter = none) (h2 : s.httpEnter = none)
    (h3 : s.shaperEnter = none)
    (h4 : s.loopExc = some Exc.keyboardInterrupt)
    (h5 : s' = { s with loopExc := none }) :
    (mainRun o f s).trace =
      (mainRun o f s').trace ++ [Event.log Severity.info] ∧
    Event.log Severity.critical ∉ (mainRun o f s).trace ∧
    (mainRun o f s).propagated = none ∧
    processExitCode o f s = 0 := by
  subst h5
  refine ⟨?_, ?_, ?_, ?_⟩ <;>
    simp [mainRun, mainBody, processExitCode, h1, h2, h3, h4,
      runHandlers_keyboardInterrupt, List.mem_replicate]

/-- Witness for C4 at a concrete run: default options, interrupt after one
loop iteration, compared against the same run ending by time limit. -/
theorem C4_interrupt_is_clean_shutdown_witness :
    (mainRun defaultOptions "archive.wpr" interruptScenario).trace =
      (mainRun defaultOptions "archive.wpr"
        { interruptScenario with loopExc := none }).trace
      ++ [Event.log Severity.info] ∧
    Event.log Severity.critical ∉
      (mainRun defaultOptions "archive.wpr" interruptScenario).trace ∧
    (mainRun defaultOptions "archive.wpr" interruptScenario).propagated =
      none ∧
    processExitCode defaultOptions "archive.wpr" interruptScenario = 0 :=
  C4_interrupt_is_clean_shutdown defaultOptions "archive.wpr"
    interruptScenario { interruptScenario with loopExc := none }
    rfl rfl rfl rfl rfl

/-- C5: the idle-loop condition is true for every elapsed time when
`time_limit` is unset (`None`) or `0`, so the loop never terminates on its
own with any amount of fuel; when the limit `t` is non-zero the condition
is exactly `elapsed < t`, and for a positive limit the loop, which sleeps
one second per iteration, terminates once the elapsed time reaches `t`;
every sleep event in `main`'s body sleeps exactly one second. -/
theorem C5_idle_loop_condition :
    (∀ e : Int, loopCond none e = true) ∧
    (∀ e : Int, loopCond (some 0) e = true) ∧
    (∀ t e : Int, t ≠ 0 → loopCond (some t) e = decide (e < t)) ∧
    (∀ t : Int, 0 < t → runLoopFuel (t.toNat + 1) (some t) 0 = some t) ∧
    (∀ (fuel : Nat) (e : Int), runLoopFuel fuel none e = none) ∧
    (∀ (fuel : Nat) (e : Int), runLoopFuel fuel (some 0) e = none) ∧
    (∀ (o : Options) (f : String) (s : Scenario) (n : Nat),
      Event.sleepSeconds n ∈ (mainBody o f s).1 → n = 1) := by
  refine ⟨fun e => rfl, fun e => by simp [loopCond],
    fun t e ht => by simp [loopCond, ht],
    fun t ht => runLoopFuel_reaches t.toNat t 0 (by omega) (by omega),
    fun fuel e => runLoopFuel_none_limit fuel e,
    fun fuel e => runLoopFuel_zero_limit fuel e, ?_⟩
  intro o f s n hmem
  rcases s with ⟨d, hh, sh, l, it⟩
  cases d <;> cases hh <;> cases sh <;>
    simp [mainBody, List.mem_replicate] at hmem <;> omega

/-- Witness for C5 at concrete inputs: limit 3 terminates after three
one-second sleeps; no limit and limit 0 never terminate. -/
theorem C5_idle_loop_condition_witness :
    loopCond none 7 = true ∧
    loopCond (some 0) 7 = true ∧
    loopCond (some 3) 1 = decide ((1 : Int) < 3) ∧
    runLoopFuel ((3 : Int).toNat + 1) (some 3) 0 = some 3 ∧
    runLoopFuel 5 none 0 = none ∧
    runLoopFuel 5 (some 0) 0 = none ∧
    (1 : Nat) = 1 :=
  ⟨C5_idle_loop_condition.1 7, C5_idle_loop_condition.2.1 7,
   C5_idle_loop_condition.2.2.1 3 1 (by decide),
   C5_idle_loop_condition.2.2.2.1 3 (by decide),
   C5_idle_loop_condition.2.2.2.2.1 5 0,
   C5_idle_loop_condition.2.2.2.2.2.1 5 0,
   C5_idle_loop_condition.2.2.2.2.2.2 defaultOptions "archive.wpr"
     okScenario 1 (by decide)⟩

/-- C6: the server class is a pure function of the options, fixed for the
whole run: every HTTP acquisition event in the trace carries exactly the
class selected at the start of `main` (`record` selects the record server,
otherwise `spdy` selects the spdy server, otherwise the replay server),
together with `deterministic_script` and the `real_dns_lookup` callback;
and such an event does occur once DNS and HTTP acquisition succeed. -/
theorem C6_server_class_selection (o : Options) (f : String)
    (s : Scenario) (h1 : s.dnsEnter = none) (h2 : s.httpEnter = none) :
    (∀ cls det real,
      Event.acquireHttp cls f det real ∈ (mainRun o f s).trace →
        cls = replay_server_class o ∧ det = o.deterministic_script ∧
        real = true) ∧
    Event.acquireHttp (replay_server_class o) f o.deterministic_script
      true ∈ (mainRun o f s).trace ∧
    (o.record = true →
      replay_server_class o = ServerClass.recordHttpProxyServer) ∧
    (o.record = false → o.spdy = true →
      replay_server_class o = ServerClass.replaySpdyServer) ∧
    (o.record = false → o.spdy = false →
      replay_server_class o = ServerClass.replayHttpProxyServer) := by
  rcases s with ⟨d, hh, sh, l, it⟩
  obtain rfl : d = none := h1
  obtain rfl : hh = none := h2
  refine ⟨?_, ?_, fun hr => by simp [replay_server_class, hr],
    fun hr hs => by simp [replay_server_class, hr, hs],
    fun hr hs => by simp [replay_server_class, hr, hs]⟩
  · intro cls det real hmem
    cases sh with
    | some e =>
        cases e <;>
          (simp [mainRun, mainBody, runHandlers_keyboardInterrupt,
            runHandlers_dnsProxyException, runHandlers_trafficShaperException,
            runHandlers_otherExc] at hmem; tauto)
    | none =>
        cases l with
        | none =>
            simp [mainRun, mainBody, List.mem_replicate] at hmem
            tauto
        | some e =>
            cases e <;>
              (simp [mainRun, mainBody, List.mem_replicate,
                runHandlers_keyboardInterrupt, runHandlers_dnsProxyException,
                runHandlers_trafficShaperException,
                runHandlers_otherExc] at hmem; tauto)
  · cases sh with
    | some e => simp [mainRun, mainBody]
    | none => cases l <;> simp [mainRun, mainBody]

/-- Witness for C6 at concrete runs: default options select the replay
server; with `record` set the record server is selected; with only `spdy`
set the spdy server is selected. -/
theorem C6_server_class_selection_witness :
    (ServerClass.replayHttpProxyServer = replay_server_class defaultOptions ∧
      true = defaultOptions.deterministic_script ∧ (true : Bool) = true) ∧
    Event.acquireHttp (replay_server_class defaultOptions) "archive.wpr"
      defaultOptions.deterministic_script true ∈
      (mainRun defaultOptions "archive.wpr" okScenario).trace ∧
    replay_server_class { defaultOptions with record := true } =
      ServerClass.recordHttpProxyServer ∧
    replay_server_class { defaultOptions with spdy := true } =
      ServerClass.replaySpdyServer ∧
    replay_server_class defaultOptions =
      ServerClass.replayHttpProxyServer :=
  ⟨(C6_server_class_selection defaultOptions "archive.wpr" okScenario rfl
      rfl).1 ServerClass.replayHttpProxyServer true true (by decide),
   (C6_server_class_selection defaultOptions "archive.wpr" okScenario rfl
      rfl).2.1,
   (C6_server_class_selection { defaultOptions with record := true }
      "archive.wpr" okScenario rfl rfl).2.2.1 rfl,
   (C6_server_class_selection { defaultOptions with spdy := true }
      "archive.wpr" okScenario rfl rfl).2.2.2.1 rfl rfl,
   (C6_server_class_selection defaultOptions "archive.wpr" okScenario rfl
      rfl).2.2.2.2 rfl rfl⟩

/-- C7: the three harness toggles default to enabled (parsing no flags
leaves `deterministic_script`, `dns_private_passthrough` and
`dns_forwarding` all `True`), each `--no-...` flag stores `False` on its
dest, and `main` forwards `deterministic_script` to the HTTP service
constructor, `dns_forwarding` and `dns_private_passthrough` to the DNS
service, and `dns_forwarding` also to the traffic shaper. -/
theorem C7_harness_toggles (o : Options) (f : String) (s : Scenario) :
    parseOptions [] = defaultOptions ∧
    defaultOptions.deterministic_script = true ∧
    defaultOptions.dns_private_passthrough = true ∧
    defaultOptions.dns_forwarding = true ∧
    (∀ o' : Options,
      (applyFlag o' Flag.no_deterministic_script).deterministic_script =
        false ∧
      (applyFlag o' Flag.no_dns_private_passthrough).dns_private_passthrough
        = false ∧
      (applyFlag o' Flag.no_dns_forwarding).dns_forwarding = false) ∧
    (s.dnsEnter = none →
      Event.acquireDns o.dns_forwarding o.dns_private_passthrough ∈
        (mainRun o f s).trace) ∧
    (s.dnsEnter = none → s.httpEnter = none →
      Event.acquireHttp (replay_server_class o) f o.deterministic_script
        true ∈ (mainRun o f s).trace) ∧
    (s.dnsEnter = none → s.httpEnter = none → s.shaperEnter = none →
      Event.acquireShaper o.dns_forwarding o.up o.down o.delay_ms
        o.packet_loss_rate ∈ (mainRun o f s).trace) := by
  rcases s with ⟨d, hh, sh, l, it⟩
  refine ⟨rfl, rfl, rfl, rfl, fun o' => ⟨rfl, rfl, rfl⟩, ?_, ?_, ?_⟩
  · intro h1
    obtain rfl : d = none := h1
    cases hh <;> cases sh <;> cases l <;> simp [mainRun, mainBody]
  · intro h1 h2
    obtain rfl : d = none := h1
    obtain rfl : hh = none := h2
    cases sh <;> cases l <;> simp [mainRun, mainBody]
  · intro h1 h2 h3
    obtain rfl : d = none := h1
    obtain rfl : hh = none := h2
    obtain rfl : sh = none := h3
    cases l <;> simp [mainRun, mainBody]

/-- Witness for C7 at a concrete run: default options, failure-free
scenario. -/
theorem C7_harness_toggles_witness :
    (applyFlag defaultOptions
      Flag.no_deterministic_script).deterministic_script = false ∧
    Event.acquireDns true true ∈
      (mainRun defaultOptions "archive.wpr" okScenario).trace ∧
    Event.acquireHttp ServerClass.replayHttpProxyServer "archive.wpr" true
      true ∈ (mainRun defaultOptions "archive.wpr" okScenario).trace ∧
    Event.acquireShaper true "0" "0" "0" "0" ∈
      (mainRun defaultOptions "archive.wpr" okScenario).trace :=
  ⟨((C7_harness_toggles defaultOptions "archive.wpr"
      okScenario).2.2.2.2.1 defaultOptions).1,
   (C7_harness_toggles defaultOptions "archive.wpr"
      okScenario).2.2.2.2.2.1 rfl,
   (C7_harness_toggles defaultOptions "archive.wpr"
      okScenario).2.2.2.2.2.2.1 rfl rfl,
   (C7_harness_toggles defaultOptions "archive.wpr"
      okScenario).2.2.2.2.2.2.2 rfl rfl rfl⟩

/-- C8: the four network-simulation parameters default to the string
`"0"` (also after parsing an empty command line), and `main` passes all
four unparsed, as the string fields of the options, to the
`TrafficShaper` constructor. -/
theorem C8_network_simulation_params (o : Options) (f : String)
    (s : Scenario) (h1 : s.dnsEnter = none) (h2 : s.httpEnter = none)
    (h3 : s.shaperEnter = none) :
    defaultOptions.up = "0" ∧ defaultOptions.down = "0" ∧
    defaultOptions.delay_ms = "0" ∧
    defaultOptions.packet_loss_rate = "0" ∧
    (parseOptions []).up = "0" ∧ (parseOptions []).down = "0" ∧
    (parseOptions []).delay_ms = "0" ∧
    (parseOptions []).packet_loss_rate = "0" ∧
    Event.acquireShaper o.dns_forwarding o.up o.down o.delay_ms
      o.packet_loss_rate ∈ (mainRun o f s).trace := by
  rcases s with ⟨d, hh, sh, l, it⟩
  obtain rfl : d = none := h1
  obtain rfl : hh = none := h2
  obtain rfl : sh = none := h3
  refine ⟨rfl, rfl, rfl, rfl, rfl, rfl, rfl, rfl, ?_⟩
  cases l <;> simp [mainRun, mainBody]

/-- Witness for C8 at a concrete run: default options, failure-free
scenario. -/
theorem C8_network_simulation_params_witness :
    defaultOptions.up = "0" ∧ defaultOptions.down = "0" ∧
    defaultOptions.delay_ms = "0" ∧
    defaultOptions.packet_loss_rate = "0" ∧
    (parseOptions []).up = "0" ∧ (parseOptions []).down = "0" ∧
    (parseOptions []).delay_ms = "0" ∧
    (parseOptions []).packet_loss_rate = "0" ∧
    Event.acquireShaper true "0" "0" "0" "0" ∈
      (mainRun defaultOptions "archive.wpr" okScenario).trace :=
  C8_network_simulation_params defaultOptions "archive.wpr" okScenario
    rfl rfl rfl

/-- C9: when `record` is set, the record server is selected regardless of
`spdy`: the selected class is `RecordHttpProxyServer` and changing the
`spdy` field does not change the selection. -/
theorem C9_record_overrides_spdy (o : Options) (h : o.record = true) :
    replay_server_class o = ServerClass.recordHttpProxyServer ∧
    replay_server_class { o with spdy := true } =
      replay_server_class { o with spdy := false } := by
  constructor <;> simp [replay_server_class, h]

/-- Witness for C9 at concrete options with both `record` and `spdy`
set. -/
theorem C9_record_overrides_spdy_witness :
    replay_server_class
      { defaultOptions with record := true, spdy := true } =
      ServerClass.recordHttpProxyServer ∧
    replay_server_class
      { { defaultOptions with record := true, spdy := true } with
        spdy := true } =
      replay_server_class
        { { defaultOptions with record := true, spdy := true } with
          spdy := false } :=
  C9_record_overrides_spdy
    { defaultOptions with record := true, spdy := true } rfl

/-- C10: `main` never propagates an exception to its caller: whatever the
scenario, the propagated exception is `none`; and when an exception `e`
escapes the nested scopes, the handler that ran is the one the claim
lists: `KeyboardInterrupt` logs at info, `DnsProxyException` and
`TrafficShaperException` log at critical, and any other exception is
caught by the bare handler, which prints the formatted traceback. -/
theorem C10_main_never_propagates (o : Options) (f : String)
    (s : Scenario) :
    (mainRun o f s).propagated = none ∧
    (∀ e, (mainBody o f s).2 = some e →
      (mainRun o f s).trace = (mainBody o f s).1 ++
        match e with
        | Exc.keyboardInterrupt => [Event.log Severity.info]
        | Exc.dnsProxyException => [Event.log Severity.critical]
        | Exc.trafficShaperException => [Event.log Severity.critical]
        | Exc.otherExc => [Event.printTraceback]) := by
  constructor
  · rcases hb : (mainBody o f s).2 with _ | e
    · simp [mainRun, hb]
    · cases e <;> simp [mainRun, hb, runHandlers_keyboardInterrupt,
        runHandlers_dnsProxyException, runHandlers_trafficShaperException,
        runHandlers_otherExc]
  · intro e hb
    cases e <;> simp [mainRun, hb, runHandlers_keyboardInterrupt,
      runHandlers_dnsProxyException, runHandlers_trafficShaperException,
      runHandlers_otherExc]

/-- Witness for C10 at a concrete run: DNS acquisition raises an
exception other than the named ones; the bare handler prints the
traceback and nothing propagates. -/
theorem C10_main_never_propagates_witness :
    (mainRun defaultOptions "archive.wpr" otherFailScenario).propagated =
      none ∧
    (mainRun defaultOptions "archive.wpr" otherFailScenario).trace =
      (mainBody defaultOptions "archive.wpr" otherFailScenario).1 ++
        [Event.printTraceback] :=
  ⟨(C10_main_never_propagates defaultOptions "archive.wpr"
      otherFailScenario).1,
   (C10_main_never_propagates defaultOptions "archive.wpr"
      otherFailScenario).2 Exc.otherExc (by decide)⟩

end Perftracker
